import Mathlib

/-!
Verification of the session translation layer of the Thingworx VS Code
debug adapter (src/src/thingworxDebug.ts, class ThingworxDebugSession).

The embedding models each request handler as a pure function from its
arguments (and, where a remote call is awaited, the outcome of that call)
to the observable effects of the handler: the remote service calls it
issues, the protocol messages it sends back to the frontend, and the
session state it updates (the frame-to-thread mapping, the cancellation
tokens, the websocket).  Asynchronous remote calls whose promise is not
awaited in the source (connectDebugger in attachRequest, disconnectDebugger
in disconnectRequest) are modelled by a ServiceOutcome parameter that the
translated function ignores, exactly as the source ignores the rejection
of the un-awaited promise.
-/

namespace ThingworxDebug

/-- Names and arguments of the remote service calls issued through
invokeService in thingworxDebug.ts.  An Option Nat thread id models a
JavaScript value that may be undefined. -/
inductive RemoteCall
  | connectDebugger
  | disconnectDebugger
  | resumeThread (threadID : Option Nat)
  | resumeAllThreads
  | getScopesInThread (threadID : Option Nat) (frameID : Nat)
  | evaluate (expression : String) (threadID : Option Nat) (frameID : Option Nat)
  | evaluateGlobally (expression : String) (threadID : Option Nat) (frameID : Option Nat)
  deriving DecidableEq

/-- A terminal protocol message sent back to the frontend for a request:
either a success response (sendResponse) or an error response
(sendErrorResponse) carrying its format string. -/
inductive SentMessage
  | response
  | errorResponse (format : String)
  deriving DecidableEq

/-- Whether a SentMessage is an error response. -/
def SentMessage.isError : SentMessage → Bool
  | SentMessage.errorResponse _ => true
  | SentMessage.response => false

/-- Outcome of an awaited (or fire-and-forget) invokeService promise:
the promise either resolves or rejects. -/
inductive ServiceOutcome
  | success
  | failure
  deriving DecidableEq

/- ------------------------------------------------------------------
Attach handshake (attachRequest, thingworxDebug.ts lines 250-308).
------------------------------------------------------------------ -/

/-- The first inbound frame of the handshake as seen by the initial
websocket.onmessage handler: either JSON.parse throws (unparsable) or the
frame parses to an object whose authenticated field is truthy or falsy. -/
inductive FirstFrame
  | unparsable
  | parsed (authenticated : Bool)
  deriving DecidableEq

/-- Observable outcome of running the handshake onmessage handler once:
remote calls issued, protocol messages sent for the attach request,
whether the socket was closed, and whether the steady-state onmessage
handler (didRecieveMessageWithEvent) was installed. -/
structure AttachOutcome where
  calls : List RemoteCall
  sent : List SentMessage
  socketClosed : Bool
  steadyHandlerInstalled : Bool
  deriving DecidableEq

/-- Translated from attachRequest, lines 263-297.  On an unparsable frame
the catch block closes the socket and sends the generic error.  On a
parsed frame with authenticated truthy, invokeService connectDebugger is
called WITHOUT await, so its rejection never reaches the inner catch; the
success response is sent unconditionally and the handler swap then runs.
On a parsed frame with authenticated falsy there is no else branch: no
message is sent, the socket stays open, and only the handler swap runs.
The connectOutcome parameter is the fate of the un-awaited connectDebugger
promise; the source never observes it, so the function ignores it. -/
def attachOnFirstMessage (_connectOutcome : ServiceOutcome) : FirstFrame → AttachOutcome
  | FirstFrame.unparsable =>
    ⟨[], [SentMessage.errorResponse "Unable to process request"], true, false⟩
  | FirstFrame.parsed true =>
    ⟨[RemoteCall.connectDebugger], [SentMessage.response], false, true⟩
  | FirstFrame.parsed false =>
    ⟨[], [], false, true⟩

/- ------------------------------------------------------------------
Steady-state event dispatch (didRecieveMessageWithEvent, lines 325-348).
------------------------------------------------------------------ -/

/-- Events re-emitted to the frontend by the steady-state dispatch path:
StoppedEvent(reason, threadId, exceptionText), ContinuedEvent(threadId,
allThreadsContinued), LogOutputEvent(body, level). -/
inductive FrontendEvent
  | stopped (reason : String) (threadId : Nat) (exceptionText : String)
  | continued (threadId : Nat) (allThreadsContinued : Bool)
  | logOutput (body : String) (level : String)
  deriving DecidableEq

/-- An inbound steady-state frame: either its payload fails JSON.parse, or
it parses to an object carrying name, threadID, reason, exception, body and
level fields. -/
inductive InboundFrame
  | unparsable
  | parsed (nm : String) (threadID : Nat) (reason : String)
      (exceptionText : String) (body : String) (level : String)
  deriving DecidableEq

/-- Result of one run of the steady-state onmessage handler: either the
handler raised (a JavaScript TypeError escaped it) or it completed,
emitting the given events. -/
inductive DispatchResult
  | threw
  | events (es : List FrontendEvent)
  deriving DecidableEq

/-- Translated from didRecieveMessageWithEvent, lines 325-348.  When
JSON.parse throws, the catch block leaves the local variable message
undefined and execution falls through to switch (message.name), which
dereferences undefined and raises a TypeError out of the handler: this is
the threw case.  On a parsed message the switch dispatches on the name
field; unknown names fall to the empty default case. -/
def didRecieveMessageWithEvent : InboundFrame → DispatchResult
  | InboundFrame.unparsable => DispatchResult.threw
  | InboundFrame.parsed nm threadID reason exceptionText body level =>
    if nm = "suspended" then
      DispatchResult.events [FrontendEvent.stopped reason threadID exceptionText]
    else if nm = "resumed" then
      DispatchResult.events [FrontendEvent.continued threadID false]
    else if nm = "log" then
      DispatchResult.events [FrontendEvent.logOutput (body ++ "\n") level]
    else
      DispatchResult.events []

/- ------------------------------------------------------------------
Frame-to-thread correlation (_scopeThreadMapping, lines 506-558, 679-708).
------------------------------------------------------------------ -/

/-- The _scopeThreadMapping object, modelled as an association list in
which the most recent assignment is at the head (JavaScript property
assignment overwrites, which the head-first lookup reproduces). -/
abbrev ScopeThreadMapping := List (Nat × Nat)

/-- Property read _scopeThreadMapping[fi]: the most recently assigned
value for key fi, or none when the key was never assigned (undefined). -/
def mappingLookup : ScopeThreadMapping → Nat → Option Nat
  | [], _ => none
  | (k, v) :: rest, fi => if fi = k then some v else mappingLookup rest fi

/-- One row of the getStackTraceInThread result consumed by
stackTraceRequest, lines 518-530. -/
structure StackFrameRow where
  id : Nat
  name : String
  source : String
  line : Nat
  column : Nat
  deriving DecidableEq

/-- Side effect of stackTraceRequest on _scopeThreadMapping, line 529:
for every returned row, _scopeThreadMapping[row.id] = args.threadId. -/
def stackTraceUpdateMapping (m : ScopeThreadMapping) (threadId : Nat)
    (rows : List StackFrameRow) : ScopeThreadMapping :=
  rows.foldl (fun acc row => (row.id, threadId) :: acc) m

/-- The remote call built by scopesRequest, line 543: getScopesInThread
with threadID = _scopeThreadMapping[args.frameId] (undefined when the
frame id was never recorded) and frameID = args.frameId. -/
def scopesServiceCall (m : ScopeThreadMapping) (frameId : Nat) : RemoteCall :=
  RemoteCall.getScopesInThread (mappingLookup m frameId) frameId

/-- The remote call built by evaluateRequest, lines 679-691: service
evaluate with threadID = _scopeThreadMapping[args.frameId] when a frame id
is present in the arguments, service evaluateGlobally (with both ids
undefined) otherwise. -/
def evaluateServiceCall (m : ScopeThreadMapping) (expression : String)
    (frameId : Option Nat) : RemoteCall :=
  match frameId with
  | some fid => RemoteCall.evaluate expression (mappingLookup m fid) (some fid)
  | none => RemoteCall.evaluateGlobally expression none none

/- ------------------------------------------------------------------
Initialize (initializeRequest, lines 153-237).
------------------------------------------------------------------ -/

/-- One entry of response.body.exceptionBreakpointFilters, lines 190-215. -/
structure ExceptionBreakpointFilter where
  filter : String
  label : String
  description : String
  default : Bool
  supportsCondition : Bool
  conditionDescription : String
  deriving DecidableEq

/-- The capability fields assigned on response.body by initializeRequest,
lines 161-229. -/
structure Capabilities where
  supportsConfigurationDoneRequest : Bool
  supportsEvaluateForHovers : Bool
  supportsStepBack : Bool
  supportsDataBreakpoints : Bool
  supportsCompletionsRequest : Bool
  completionTriggerCharacters : List String
  supportsCancelRequest : Bool
  supportsBreakpointLocationsRequest : Bool
  supportsStepInTargetsRequest : Bool
  supportsExceptionFilterOptions : Bool
  exceptionBreakpointFilters : List ExceptionBreakpointFilter
  supportsExceptionInfoRequest : Bool
  supportsSetVariable : Bool
  supportsSetExpression : Bool
  supportsDisassembleRequest : Bool
  supportsSteppingGranularity : Bool
  supportsInstructionBreakpoints : Bool
  deriving DecidableEq

/-- The fixed capability set built by initializeRequest, lines 161-229. -/
def initializeCapabilities : Capabilities where
  supportsConfigurationDoneRequest := true
  supportsEvaluateForHovers := true
  supportsStepBack := false
  supportsDataBreakpoints := false
  supportsCompletionsRequest := true
  completionTriggerCharacters := [".", "["]
  supportsCancelRequest := false
  supportsBreakpointLocationsRequest := true
  supportsStepInTargetsRequest := false
  supportsExceptionFilterOptions := true
  exceptionBreakpointFilters := [
    { filter := "exceptions",
      label := "All Exceptions",
      description := "Break when errors are thrown or when a function exits as a result of an error being thrown.",
      default := false,
      supportsCondition := false,
      conditionDescription := "Enter the exception\x27s name" },
    { filter := "caughtExceptions",
      label := "Caught Exceptions",
      description := "Break when errors are thrown or when a function exits as a result of an error being thrown and that error is caught.",
      default := false,
      supportsCondition := false,
      conditionDescription := "Enter the exception\x27s name" },
    { filter := "uncaughtExceptions",
      label := "Uncaught Exceptions",
      description := "Break when errors are thrown or when a function exits as a result of an error being thrown and that error is not caught.",
      default := false,
      supportsCondition := false,
      conditionDescription := "Enter the exception\x27s name" }]
  supportsExceptionInfoRequest := true
  supportsSetVariable := true
  supportsSetExpression := true
  supportsDisassembleRequest := false
  supportsSteppingGranularity := false
  supportsInstructionBreakpoints := false

/-- The two externally visible actions of initializeRequest, in program
order: sendResponse(response) at line 231, then sendEvent(new
InitializedEvent()) at line 236. -/
inductive InitAction
  | response (caps : Capabilities)
  | initializedEvent
  deriving DecidableEq

/-- Translated from initializeRequest, lines 153-237: the response with
the fixed capability set is sent first, the Initialized event second. -/
def initializeRequest : List InitAction :=
  [InitAction.response initializeCapabilities, InitAction.initializedEvent]

/- ------------------------------------------------------------------
Unconditionally rejected requests (lines 350-355, 622-624, 641-647,
710-720, 740-750).
------------------------------------------------------------------ -/

/-- The request kinds whose handlers reject unconditionally. -/
inductive RejectedRequest
  | launch
  | reverseContinue
  | stepBack
  | stepInTargets
  | setExpression
  | dataBreakpointInfo
  | setDataBreakpoints
  | disassemble
  | setInstructionBreakpoints
  | custom
  deriving DecidableEq

/-- Translated from the rejecting handlers: launchRequest (line 351) sends
the error "Launch request not supported"; every other handler in the set
sends the error "Unsupported operation".  None of them calls
invokeService. -/
def handleRejected : RejectedRequest → List RemoteCall × List SentMessage
  | RejectedRequest.launch =>
    ([], [SentMessage.errorResponse "Launch request not supported"])
  | RejectedRequest.reverseContinue =>
    ([], [SentMessage.errorResponse "Unsupported operation"])
  | RejectedRequest.stepBack =>
    ([], [SentMessage.errorResponse "Unsupported operation"])
  | RejectedRequest.stepInTargets =>
    ([], [SentMessage.errorResponse "Unsupported operation"])
  | RejectedRequest.setExpression =>
    ([], [SentMessage.errorResponse "Unsupported operation"])
  | RejectedRequest.dataBreakpointInfo =>
    ([], [SentMessage.errorResponse "Unsupported operation"])
  | RejectedRequest.setDataBreakpoints =>
    ([], [SentMessage.errorResponse "Unsupported operation"])
  | RejectedRequest.disassemble =>
    ([], [SentMessage.errorResponse "Unsupported operation"])
  | RejectedRequest.setInstructionBreakpoints =>
    ([], [SentMessage.errorResponse "Unsupported operation"])
  | RejectedRequest.custom =>
    ([], [SentMessage.errorResponse "Unsupported operation"])

/- ------------------------------------------------------------------
Path normalization (setBreakPointsRequest lines 362-365 and
breakpointLocationsRequest lines 397-400; the two sites are textually
identical).
------------------------------------------------------------------ -/

/-- The String.prototype.replace call with the global backslash pattern:
every backslash character becomes a forward slash. -/
def replaceBackslashes : List Char → List Char
  | [] => []
  | c :: cs => (if c = '\\' then '/' else c) :: replaceBackslashes cs

/-- Translated from lines 362-365 and 397-400: when process.platform is
win32, the path becomes path[0].toUpperCase() + path.substring(1) with
backslashes replaced by forward slashes IN THE SUBSTRING ONLY; on any
other platform the path is unchanged.  On win32 with an empty path,
path[0] is undefined and the toUpperCase call raises a TypeError, modelled
as none. -/
def normalizePath (isWin32 : Bool) (p : List Char) : Option (List Char) :=
  match isWin32, p with
  | false, p => some p
  | true, [] => none
  | true, c :: rest => some (c.toUpper :: replaceBackslashes rest)

/-- Modelled from the claim wording, for comparison with normalizePath:
uppercase the first character and replace EVERY backslash (including one
in the first position) with a forward slash. -/
def normalizePathClaimed (isWin32 : Bool) (p : List Char) : Option (List Char) :=
  match isWin32, p with
  | false, p => some p
  | true, [] => none
  | true, c :: rest => some (replaceBackslashes (c.toUpper :: rest))

/- ------------------------------------------------------------------
Continue, cancel, disconnect (lines 606-620, 731-738, 310-319).
------------------------------------------------------------------ -/

/-- Arguments of the continue request used by continueRequest. -/
structure ContinueArguments where
  threadId : Nat
  singleThread : Bool
  deriving DecidableEq

/-- The response body set by continueRequest on success, line 610/614. -/
structure ContinueBody where
  allThreadsContinued : Bool
  deriving DecidableEq

/-- Observable outcome of continueRequest: remote calls issued, protocol
messages sent, and the response body (none when it was never assigned). -/
structure ContinueResult where
  calls : List RemoteCall
  sent : List SentMessage
  body : Option ContinueBody
  deriving DecidableEq

/-- Translated from continueRequest, lines 606-620.  With singleThread
truthy it awaits resumeThread with the request thread id and then sets
response.body.allThreadsContinued to false; otherwise it awaits
resumeAllThreads and sets the flag to true.  NEITHER branch calls
sendResponse, so on success nothing is sent.  When the awaited call
rejects, the catch sends the generic error response and the body is never
assigned. -/
def continueRequest (args : ContinueArguments) (outcome : ServiceOutcome) : ContinueResult :=
  match args.singleThread, outcome with
  | true, ServiceOutcome.success =>
    ⟨[RemoteCall.resumeThread (some args.threadId)], [], some ⟨false⟩⟩
  | true, ServiceOutcome.failure =>
    ⟨[RemoteCall.resumeThread (some args.threadId)],
      [SentMessage.errorResponse "Unable to process continue request"], none⟩
  | false, ServiceOutcome.success =>
    ⟨[RemoteCall.resumeAllThreads], [], some ⟨true⟩⟩
  | false, ServiceOutcome.failure =>
    ⟨[RemoteCall.resumeAllThreads],
      [SentMessage.errorResponse "Unable to process continue request"], none⟩

/-- Arguments of the cancel request used by cancelRequest. -/
structure CancelArguments where
  requestId : Option Nat
  progressId : Option Nat
  deriving DecidableEq

/-- Translated from cancelRequest, lines 731-738: when args.requestId is
truthy (present and nonzero) the id is recorded in _cancellationTokens;
the progressId branch is empty; no response of any kind is ever sent. -/
def cancelRequest (tokens : List (Nat × Bool)) (args : CancelArguments) :
    List (Nat × Bool) × List SentMessage :=
  match args.requestId with
  | some rid => if rid ≠ 0 then ((rid, true) :: tokens, []) else (tokens, [])
  | none => (tokens, [])

/-- Observable outcome of disconnectRequest. -/
structure DisconnectResult where
  calls : List RemoteCall
  sent : List SentMessage
  socketClosed : Bool
  deriving DecidableEq

/-- Translated from disconnectRequest, lines 310-319: invokeService
disconnectDebugger is called without await (its rejection never reaches
the catch, which is dead on this path), the websocket is closed, and no
response is sent.  The outcome of the un-awaited promise is ignored by the
source, so the function ignores its parameter. -/
def disconnectRequest (disconnectOutcome : ServiceOutcome) : DisconnectResult :=
  match disconnectOutcome with
  | _ => ⟨[RemoteCall.disconnectDebugger], [], true⟩

/- ------------------------------------------------------------------
Helper lemmas.
------------------------------------------------------------------ -/

/-- Folding stack-trace rows into the mapping does not disturb the lookup
of a frame id that none of the rows carries. -/
theorem mappingLookup_stackTraceUpdate_not_mem (T fi : Nat) :
    ∀ (rows : List StackFrameRow) (m : ScopeThreadMapping),
      fi ∉ rows.map (fun r => r.id) →
      mappingLookup (stackTraceUpdateMapping m T rows) fi = mappingLookup m fi := by
  intro rows
  induction rows with
  | nil => intro m _; rfl
  | cons r rs ih =>
    intro m h
    have hne : fi ≠ r.id := by
      intro hEq
      exact h (by simp [hEq])
    have hrest : fi ∉ rs.map (fun r => r.id) := by
      intro hmem
      exact h (by simp [hmem])
    have hstep : stackTraceUpdateMapping m T (r :: rs)
        = stackTraceUpdateMapping ((r.id, T) :: m) T rs := rfl
    rw [hstep, ih _ hrest]
    simp [mappingLookup, hne]

/-- Folding stack-trace rows for thread T into the mapping records every
carried frame id as belonging to T. -/
theorem mappingLookup_stackTraceUpdate_mem (T fi : Nat) :
    ∀ (rows : List StackFrameRow) (m : ScopeThreadMapping),
      fi ∈ rows.map (fun r => r.id) →
      mappingLookup (stackTraceUpdateMapping m T rows) fi = some T := by
  intro rows
  induction rows with
  | nil => intro m h; simp at h
  | cons r rs ih =>
    intro m h
    have hstep : stackTraceUpdateMapping m T (r :: rs)
        = stackTraceUpdateMapping ((r.id, T) :: m) T rs := rfl
    by_cases hmem : fi ∈ rs.map (fun r => r.id)
    · rw [hstep]
      exact ih _ hmem
    · have hor : fi = r.id ∨ fi ∈ rs.map (fun r => r.id) := by simpa using h
      have hEq : fi = r.id := by
        rcases hor with h1 | h2
        · exact h1
        · exact absurd h2 hmem
      rw [hstep, mappingLookup_stackTraceUpdate_not_mem T fi rs _ hmem]
      simp [mappingLookup, hEq]

/-- Replacing backslashes is the identity on a character list containing
no backslash. -/
theorem replaceBackslashes_of_not_mem (l : List Char) (h : '\\' ∉ l) :
    replaceBackslashes l = l := by
  induction l with
  | nil => rfl
  | cons c cs ih =>
    have hc : c ≠ '\\' := by
      intro hEq
      exact h (by simp [hEq])
    have hcs : '\\' ∉ cs := by
      intro hmem
      exact h (by simp [hmem])
    simp [replaceBackslashes, hc, ih hcs]

/- ------------------------------------------------------------------
Claims.
------------------------------------------------------------------ -/

/-- C1: the claim states that the continue, cancel and disconnect handlers
each send exactly one terminal response on every execution path.  The code
violates this: continueRequest assigns response.body on success but never
calls sendResponse, cancelRequest never sends anything, and
disconnectRequest neither sends a response nor can its catch run (the
disconnectDebugger promise is not awaited).  Each handler below sends zero
responses on the exhibited path. -/
theorem handlers_send_no_terminal_response :
    (continueRequest ⟨3, true⟩ ServiceOutcome.success).sent = [] ∧
    (cancelRequest [] ⟨some 5, none⟩).2 = [] ∧
    (disconnectRequest ServiceOutcome.success).sent = [] ∧
    (disconnectRequest ServiceOutcome.failure).sent = [] := by
  decide

/-- C2 counterexample: when the first handshake frame parses with
authenticated = false, the claim says the attach request is resolved with
the generic error and the socket is closed; in the code the truthy branch
is simply skipped, so nothing is sent and the socket stays open (only the
steady-state handler swap runs). -/
theorem attach_unauthenticated_no_error_response :
    (attachOnFirstMessage ServiceOutcome.success (FirstFrame.parsed false)).sent = [] ∧
    (attachOnFirstMessage ServiceOutcome.success (FirstFrame.parsed false)).socketClosed = false ∧
    (attachOnFirstMessage ServiceOutcome.success (FirstFrame.parsed false)).steadyHandlerInstalled = true := by
  decide

/-- C2 (amended): only a first frame that fails to parse as JSON resolves
the attach request with the generic "Unable to process request" error and
closes the socket; a frame parsing with authenticated = false sends no
response at all and leaves the socket open, installing the steady-state
handler. -/
theorem attach_first_frame_behavior (o : ServiceOutcome) :
    (attachOnFirstMessage o FirstFrame.unparsable).sent
      = [SentMessage.errorResponse "Unable to process request"] ∧
    (attachOnFirstMessage o FirstFrame.unparsable).socketClosed = true ∧
    (attachOnFirstMessage o (FirstFrame.parsed false)).sent = [] ∧
    (attachOnFirstMessage o (FirstFrame.parsed false)).socketClosed = false :=
  ⟨rfl, rfl, rfl, rfl⟩

/-- C3: the claim states that a failure of the connectDebugger remote call
fails the attach with an error and a closed socket, which is what the
handshake catch block was written to do; but the code never awaits the
connectDebugger promise, so the catch is dead and the attach resolves with
success and an open socket even when the call fails.  This theorem
evaluates the code at the failing input: authenticated first frame,
rejecting connectDebugger call. -/
theorem attach_success_despite_connect_failure :
    (attachOnFirstMessage ServiceOutcome.failure (FirstFrame.parsed true)).calls
      = [RemoteCall.connectDebugger] ∧
    (attachOnFirstMessage ServiceOutcome.failure (FirstFrame.parsed true)).sent
      = [SentMessage.response] ∧
    (attachOnFirstMessage ServiceOutcome.failure (FirstFrame.parsed true)).socketClosed = false := by
  decide

/-- C4: the claim states that a steady-state frame whose payload fails to
parse is silently dropped and the handler completes without raising.  The
code catches the JSON.parse exception but then executes switch
(message.name) with message still undefined, raising a TypeError out of
the handler; this contradicts the code's own comment that such messages
are ignored.  This theorem evaluates the code at the failing input. -/
theorem unparsable_frame_raises :
    didRecieveMessageWithEvent InboundFrame.unparsable = DispatchResult.threw := rfl

/-- C5: for every successfully parsed steady-state frame, name "suspended"
emits a Stopped event with the payload reason, thread id and exception
text; name "resumed" emits a Continued event for the payload thread id
with the all-threads flag false; name "log" emits a log output event whose
body is the payload body with a newline appended and whose level is the
payload level; any other name emits nothing. -/
theorem parsed_frame_dispatch (threadID : Nat)
    (reason exceptionText body level nm : String) :
    didRecieveMessageWithEvent
        (InboundFrame.parsed "suspended" threadID reason exceptionText body level)
      = DispatchResult.events [FrontendEvent.stopped reason threadID exceptionText] ∧
    didRecieveMessageWithEvent
        (InboundFrame.parsed "resumed" threadID reason exceptionText body level)
      = DispatchResult.events [FrontendEvent.continued threadID false] ∧
    didRecieveMessageWithEvent
        (InboundFrame.parsed "log" threadID reason exceptionText body level)
      = DispatchResult.events [FrontendEvent.logOutput (body ++ "\n") level] ∧
    (nm ≠ "suspended" → nm ≠ "resumed" → nm ≠ "log" →
      didRecieveMessageWithEvent
          (InboundFrame.parsed nm threadID reason exceptionText body level)
        = DispatchResult.events []) := by
  refine ⟨?_, ?_, ?_, ?_⟩
  · simp [didRecieveMessageWithEvent]
  · simp [didRecieveMessageWithEvent]
  · simp [didRecieveMessageWithEvent]
  · intro h1 h2 h3
    simp [didRecieveMessageWithEvent, h1, h2, h3]

/-- C5 witness: the dispatch theorem applied at a concrete frame with an
unknown name. -/
theorem parsed_frame_dispatch_witness :
    didRecieveMessageWithEvent (InboundFrame.parsed "other" 1 "r" "e" "b" "l")
      = DispatchResult.events [] :=
  (parsed_frame_dispatch 1 "r" "e" "b" "l" "other").2.2.2
    (by decide) (by decide) (by decide)

/-- C6 counterexample: the claim states that referencing a frame id never
recorded by any stackTrace yields a CorrelationError rather than a remote
call with an undefined thread id; in the code the unguarded lookup
_scopeThreadMapping[frameId] returns undefined and the remote call is made
anyway, with threadID undefined (none). -/
theorem unknown_frame_yields_undefined_thread_call :
    scopesServiceCall [] 42 = RemoteCall.getScopesInThread none 42 ∧
    evaluateServiceCall [] "x" (some 42)
      = RemoteCall.evaluate "x" none (some 42) := by
  decide

/-- C6 (amended): after a stackTrace for thread T returns rows f1..fn, a
scopes or evaluate request referencing any returned frame id invokes the
remote call with threadID = T; referencing a frame id absent from the
mapping invokes the remote call with threadID undefined (none) instead of
raising a CorrelationError. -/
theorem frame_thread_index_amended (m : ScopeThreadMapping) (T fi : Nat)
    (rows : List StackFrameRow) (expression : String)
    (hmem : fi ∈ rows.map (fun r => r.id)) :
    scopesServiceCall (stackTraceUpdateMapping m T rows) fi
      = RemoteCall.getScopesInThread (some T) fi ∧
    evaluateServiceCall (stackTraceUpdateMapping m T rows) expression (some fi)
      = RemoteCall.evaluate expression (some T) (some fi) ∧
    (∀ m2 fid, mappingLookup m2 fid = none →
      scopesServiceCall m2 fid = RemoteCall.getScopesInThread none fid ∧
      evaluateServiceCall m2 expression (some fid)
        = RemoteCall.evaluate expression none (some fid)) := by
  refine ⟨?_, ?_, ?_⟩
  · simp [scopesServiceCall, mappingLookup_stackTraceUpdate_mem T fi rows m hmem]
  · simp [evaluateServiceCall, mappingLookup_stackTraceUpdate_mem T fi rows m hmem]
  · intro m2 fid hnone
    exact ⟨by simp [scopesServiceCall, hnone], by simp [evaluateServiceCall, hnone]⟩

/-- C6 witness: the amended theorem applied to a concrete stack trace for
thread 7 with frames 1 and 2 and to the empty mapping. -/
theorem frame_thread_index_amended_witness :
    scopesServiceCall
        (stackTraceUpdateMapping [] 7 [⟨1, "f", "s", 1, 1⟩, ⟨2, "g", "s", 2, 1⟩]) 2
      = RemoteCall.getScopesInThread (some 7) 2 ∧
    evaluateServiceCall
        (stackTraceUpdateMapping [] 7 [⟨1, "f", "s", 1, 1⟩, ⟨2, "g", "s", 2, 1⟩]) "x" (some 2)
      = RemoteCall.evaluate "x" (some 7) (some 2) ∧
    scopesServiceCall [] 99 = RemoteCall.getScopesInThread none 99 := by
  have h := frame_thread_index_amended [] 7 2
    [⟨1, "f", "s", 1, 1⟩, ⟨2, "g", "s", 2, 1⟩] "x" (by decide)
  exact ⟨h.1, h.2.1, (h.2.2 [] 99 rfl).1⟩

/-- C7: the initialize request returns the fixed capability set with
supportsEvaluateForHovers = true, supportsStepBack = false,
supportsCancelRequest = false, supportsDataBreakpoints = false,
supportsSetExpression = true, exactly three exception breakpoint filters
with ids exceptions, caughtExceptions, uncaughtExceptions, none of which
supports conditions; and the Initialized event is emitted after the
response is sent. -/
theorem initialize_capabilities_contract :
    initializeCapabilities.supportsEvaluateForHovers = true ∧
    initializeCapabilities.supportsStepBack = false ∧
    initializeCapabilities.supportsCancelRequest = false ∧
    initializeCapabilities.supportsDataBreakpoints = false ∧
    initializeCapabilities.supportsSetExpression = true ∧
    initializeCapabilities.exceptionBreakpointFilters.map (fun f => f.filter)
      = ["exceptions", "caughtExceptions", "uncaughtExceptions"] ∧
    initializeCapabilities.exceptionBreakpointFilters.all
      (fun f => !f.supportsCondition) = true ∧
    initializeRequest
      = [InitAction.response initializeCapabilities, InitAction.initializedEvent] := by
  refine ⟨rfl, rfl, rfl, rfl, rfl, rfl, rfl, rfl⟩

/-- C8: every request kind in the rejected set (launch, reverseContinue,
stepBack, stepInTargets, setExpression, dataBreakpointInfo,
setDataBreakpoints, disassemble, setInstructionBreakpoints, custom)
produces exactly one sent message, which is an error response, and issues
no remote service call. -/
theorem rejected_requests_error_without_remote_call :
    ∀ r : RejectedRequest,
      (handleRejected r).1 = [] ∧
      (handleRejected r).2.map SentMessage.isError = [true] := by
  intro r
  cases r <;> exact ⟨rfl, rfl⟩

/-- C9 counterexample: on win32 the code replaces backslashes only in
path.substring(1), so a backslash in the first position survives, while
the claim says every backslash is replaced.  On the two-character path of
a backslash followed by the letter a, the code leaves the leading
backslash and the claimed transform replaces it. -/
theorem normalize_path_leading_backslash_counterexample :
    normalizePath true [ '\\', 'a' ] = some [ '\\', 'a' ] ∧
    normalizePathClaimed true [ '\\', 'a' ] = some [ '/', 'a' ] ∧
    normalizePath true [ '\\', 'a' ] ≠ normalizePathClaimed true [ '\\', 'a' ] := by
  decide

/-- C9 (amended): on win32 the transform uppercases the first character
and replaces every backslash occurring after the first character with a
forward slash (a backslash in the first position is kept); on other
platforms it is the identity; and it is a no-op on an already-normalized
path, that is one whose first character is fixed by uppercasing and whose
remainder contains no backslash. -/
theorem normalize_path_amended (p rest : List Char) (c : Char)
    (hc : c.toUpper = c) (hrest : '\\' ∉ rest) :
    normalizePath false p = some p ∧
    normalizePath true (c :: rest) = some (c :: rest) := by
  constructor
  · rfl
  · simp [normalizePath, hc, replaceBackslashes_of_not_mem rest hrest]

/-- C9 witness: the amended theorem applied to the already-normalized
win32 path C:/a and to a non-win32 path. -/
theorem normalize_path_amended_witness :
    normalizePath false [ '/', 'h', 'o', 'm', 'e' ] = some [ '/', 'h', 'o', 'm', 'e' ] ∧
    normalizePath true ('C' :: [ ':', '/', 'a' ]) = some ('C' :: [ ':', '/', 'a' ]) :=
  normalize_path_amended [ '/', 'h', 'o', 'm', 'e' ] [ ':', '/', 'a' ] 'C'
    (by decide) (by decide)

/-- C10: a continue request with singleThread true and thread id t invokes
resumeThread with threadID = t and on success the response body carries
allThreadsContinued = false; a continue request without singleThread
invokes resumeAllThreads and on success the response body carries
allThreadsContinued = true. -/
theorem continue_request_mapping (t : Nat) (o : ServiceOutcome) :
    (continueRequest ⟨t, true⟩ o).calls = [RemoteCall.resumeThread (some t)] ∧
    (continueRequest ⟨t, true⟩ ServiceOutcome.success).body = some ⟨false⟩ ∧
    (continueRequest ⟨t, false⟩ o).calls = [RemoteCall.resumeAllThreads] ∧
    (continueRequest ⟨t, false⟩ ServiceOutcome.success).body = some ⟨true⟩ := by
  cases o <;> exact ⟨rfl, rfl, rfl, rfl⟩

end ThingworxDebug
